import Mathlib

/-
Verification development for `python/paddle/distributed/spawn.py`.

The file shallowly embeds the process-pool orchestrator of that module:
the option validation (`_options_valid_check`), the environment planner
(`_get_subprocess_env_list`), the per-worker wrapper (`_func_wrapper`),
and the pool supervisor (`MultiprocessContext.join` / `_throw_exception`,
together with `spawn`).

Modelling conventions:
- Python strings are Lean `String`; `str.split(',')` is `splitComma`
  (same semantics, including `"".split(',') == ['']`), and `','.join`
  is `joinComma`.
- Python exceptions raised by this module are the constructors of
  `PyError`.  `raise ValueError(msg)` becomes `PyError.valueError msg`,
  `raise RuntimeError(msg)` becomes `PyError.runtimeError msg`, and
  `raise Exception(msg)` becomes `PyError.exception msg`.  The
  expression at line 232, `"..." & (error_index, exitcode)`, applies the
  bitwise-AND operator to a `str` and a `tuple`, which Python rejects
  with a `TypeError`; it is modelled by `PyError.typeError`.
- A fallible Python function returns `Except PyError`.
- A child OS process is a `ProcStatus`: still running, exited with an
  exit code (zero on normal return, positive for `sys.exit(n)`,
  negative `-s` when killed by signal `s`), or exited and already
  joined (reaped).  `process.exitcode` is `exitcodeOf` (`none` models
  Python `None` while the process runs).
- The result of `multiprocessing.connection.wait` is passed to the
  supervisor step `joinRound` as an explicit argument `ready`: the list
  of worker indices whose sentinels the wait reported, in the order the
  supervisor iterates them.  The source keys `self.sentinels` by the
  OS-level sentinel handle and maps it back to the worker index; the
  model identifies a sentinel with its worker index.
- The user function executed by a worker is external; its behaviour in
  one run is a `FuncOutcome`: return a value, raise `KeyboardInterrupt`,
  or raise an unhandled `Exception` whose formatted traceback
  (`traceback.format_exc()`) is the carried string.
- `core.get_cuda_device_count()` and `os.getenv("CUDA_VISIBLE_DEVICES")`
  are ambient inputs, collected in `PlannerInput`.
-/

namespace PaddleSpawn

/-- Value of one entry of the `**options` dictionary passed to `spawn`.
Only string, integer and boolean option values occur in the module. -/
inductive OptVal : Type
  | str (s : String)
  | int (n : Int)
  | bool (b : Bool)
deriving DecidableEq

/-- Python exception raised by the module, see the header comment.
`typeError` models the `TypeError` produced at line 232 of the source,
where `&` is applied to a `str` and a `tuple`. -/
inductive PyError : Type
  | valueError (msg : String)
  | runtimeError (msg : String)
  | exception (msg : String)
  | typeError
deriving DecidableEq

/-- Behaviour of one run of the user function `func(*args)` inside a
worker: normal return, `KeyboardInterrupt`, or an unhandled `Exception`
whose formatted traceback is `trace`. -/
inductive FuncOutcome (α : Type) : Type
  | ret (v : α)
  | keyboardInterrupt
  | exc (trace : String)

/-- Observable result of one worker process after `_func_wrapper`
finished: the single value written to each queue (if any), the exit
code of the process, and the environment the worker ended up with. -/
structure WrapperResult (α : Type) : Type where
  errorQueue : Option String
  returnQueue : Option α
  exitcode : Int
  finalEnv : List (String × String)
deriving DecidableEq

/-- State of one child OS process as the parent observes it. -/
inductive ProcStatus : Type
  | running
  | exited (code : Int)
  | reaped (code : Int)
deriving DecidableEq

/-- One entry of the per-worker environment list produced by the
planner (rank, world size, bound device, current node ip). -/
structure EnvRecord : Type where
  rank : Nat
  worldSize : Nat
  deviceId : String
  currentNodeIp : String
deriving DecidableEq

/-- Ambient inputs read by `_get_subprocess_env_list`:
`os.getenv("CUDA_VISIBLE_DEVICES")` and `core.get_cuda_device_count()`. -/
structure PlannerInput : Type where
  cudaVisibleDevices : Option String
  cudaDeviceCount : Nat
deriving DecidableEq

/-- The `MultiprocessContext` object (source lines 182-196): process
states, the two queue lists, and the sentinel map.  `sentinels` lists
the still-live worker indices in insertion order; the source keys the
dict by sentinel handle, which the model identifies with the index. -/
structure MultiprocessContext (α : Type) : Type where
  procs : List ProcStatus
  errorQueues : List (Option String)
  returnQueues : List (Option α)
  sentinels : List Nat

/-- Result of one call to `MultiprocessContext.join`: either a returned
boolean, or a raised exception together with the `error_index` that
`_throw_exception` was called with. -/
inductive JoinOutcome : Type
  | ret (allDone : Bool)
  | raised (errorIndex : Nat) (exn : PyError)
deriving DecidableEq

/-- Helper for `splitComma`: structural recursion over the characters. -/
def splitCommaAux : List Char → List Char → List String
  | [], acc => [String.mk acc.reverse]
  | c :: rest, acc =>
      if c = ',' then String.mk acc.reverse :: splitCommaAux rest []
      else splitCommaAux rest (c :: acc)

/-- Python `s.split(',')`; in particular `splitComma "" = [""]`. -/
def splitComma (s : String) : List String :=
  splitCommaAux s.toList []

/-- Python `",".join(l)`. -/
def joinComma : List String → String
  | [] => ""
  | [s] => s
  | s :: rest => s ++ "," ++ joinComma rest

/-- Python `os.environ[k] = v` on an association-list environment. -/
def setVar (env : List (String × String)) (k v : String) : List (String × String) :=
  (env.filter (fun p => p.1 ≠ k)) ++ [(k, v)]

/-- Python `os.environ.pop(k, None)`. -/
def removeVar (env : List (String × String)) (k : String) : List (String × String) :=
  env.filter (fun p => p.1 ≠ k)

/-- Model of `_remove_risky_env` (source lines 153-157): drops the two
proxy variables from the process environment. -/
def removeRiskyEnv (env : List (String × String)) : List (String × String) :=
  removeVar (removeVar env "http_proxy") "https_proxy"

/-- Model of `_set_trainer_env` (source lines 160-162): installs every
entry of the planned record into the process environment. -/
def setTrainerEnv (envDict : List (String × String)) (env : List (String × String)) :
    List (String × String) :=
  envDict.foldl (fun e kv => setVar e kv.1 kv.2) env

/-- Model of `_func_wrapper` (source lines 165-179).  The wrapper first
installs the environment, then runs the user function; `outcome` is the
behaviour of that run.  On normal return the value goes to the return
queue and the process exits with code 0; on `KeyboardInterrupt` the
wrapper passes and the process exits with code 0 writing to neither
queue; on any other `Exception` the formatted traceback goes to the
error queue and the wrapper calls `sys.exit(1)`. -/
def funcWrapper {α : Type} (env envDict : List (String × String))
    (outcome : FuncOutcome α) : WrapperResult α :=
  let env2 := setTrainerEnv envDict (removeRiskyEnv env)
  match outcome with
  | FuncOutcome.ret v => ⟨none, some v, 0, env2⟩
  | FuncOutcome.keyboardInterrupt => ⟨none, none, 0, env2⟩
  | FuncOutcome.exc trace => ⟨some trace, none, 1, env2⟩

/-- Python `process.is_alive()`. -/
def isAlive : ProcStatus → Bool
  | ProcStatus.running => true
  | ProcStatus.exited _ => false
  | ProcStatus.reaped _ => false

/-- Python `process.exitcode` (`None` while the process runs). -/
def exitcodeOf : ProcStatus → Option Int
  | ProcStatus.running => none
  | ProcStatus.exited c => some c
  | ProcStatus.reaped c => some c

/-- Whether the parent has already joined (reaped) the process. -/
def isReaped : ProcStatus → Bool
  | ProcStatus.reaped _ => true
  | _ => false

/-- Effect of `process.join()` on an exited process: it is reaped and
keeps its exit code.  Joining an already reaped process is a no-op. -/
def joinProc : ProcStatus → ProcStatus
  | ProcStatus.exited c => ProcStatus.reaped c
  | p => p

/-- Effect of `process.terminate()`: a still running process is killed
with SIGTERM and so exits with code `-15`; terminating a process that
already exited is a no-op. -/
def terminateProc : ProcStatus → ProcStatus
  | ProcStatus.running => ProcStatus.exited (-15)
  | p => p

/-- One iteration of the teardown loop at source lines 217-220:
`if process.is_alive(): process.terminate()` followed by
`process.join()`. -/
def drainProc (p : ProcStatus) : ProcStatus :=
  joinProc (if isAlive p then terminateProc p else p)

/-- Python `process.join()` applied to position `i` of the process list. -/
def joinAt : List ProcStatus → Nat → List ProcStatus
  | [], _ => []
  | p :: ps, 0 => joinProc p :: ps
  | p :: ps, Nat.succ n => p :: joinAt ps n

/-- The inspection loop of `join` (source lines 205-212): for each
sentinel the wait reported, pop it from the live map, join the process,
and stop at the first worker whose exit code differs from 0.  Returns
the recorded `error_index` (if any) together with the updated process
list and live map. -/
def popInspect : List ProcStatus → List Nat → List Nat →
    Option Nat × List ProcStatus × List Nat
  | procs, sentinels, [] => (none, procs, sentinels)
  | procs, sentinels, i :: rest =>
      let procs2 := joinAt procs i
      if exitcodeOf (procs2.getD i ProcStatus.running) ≠ some 0 then
        (some i, procs2, sentinels.erase i)
      else
        popInspect procs2 (sentinels.erase i) rest

/-- Specification-side reading of the inspection loop: the first index
in `ready` whose exit code differs from `some 0`. -/
def firstFailing (procs : List ProcStatus) : List Nat → Option Nat
  | [] => none
  | i :: rest =>
      if exitcodeOf (procs.getD i ProcStatus.running) ≠ some 0 then some i
      else firstFailing procs rest

/-- Python `signal.Signals(n).name` for the common POSIX signals this
module can see.  Values outside the table are rendered generically; the
claims only exercise tabulated signals. -/
def signalName (n : Int) : String :=
  if n = 1 then "SIGHUP"
  else if n = 2 then "SIGINT"
  else if n = 6 then "SIGABRT"
  else if n = 9 then "SIGKILL"
  else if n = 11 then "SIGSEGV"
  else if n = 15 then "SIGTERM"
  else "Signals(" ++ toString n ++ ")"

/-- Model of `MultiprocessContext._throw_exception` (source lines
224-240).  With an empty error queue and a negative exit code the
raised message names the index and the signal; with an empty error
queue and a non-negative exit code the source evaluates
`"..." & (error_index, exitcode)`, a bitwise-AND of a `str` and a
`tuple`, so Python raises a `TypeError` instead of the intended
message.  With a non-empty error queue the traceback is re-raised
framed by the worker index. -/
def throwException (errorQueues : List (Option String)) (procs : List ProcStatus)
    (i : Nat) : PyError :=
  match errorQueues.getD i none with
  | none =>
      match exitcodeOf (procs.getD i ProcStatus.running) with
      | some exitcode =>
          if exitcode < 0 then
            PyError.exception ("Process " ++ toString i ++ " terminated with signal "
              ++ signalName (-exitcode) ++ ".")
          else
            PyError.typeError
      | none => PyError.typeError
  | some original_trace =>
      PyError.exception ("\n\n----------------------------------------------\n"
        ++ "Process " ++ toString i ++ " terminated with the following error:\n"
        ++ "----------------------------------------------\n\n" ++ original_trace)

/-- Model of one call to `MultiprocessContext.join` (source lines
198-222).  `ready` is what `multiprocessing.connection.wait` returned
(possibly empty on timeout).  If the live map is empty the call returns
`True` at once; otherwise the reported workers are inspected and either
a boolean is returned, or every process is terminated (when alive) and
joined and `_throw_exception(error_index)` is raised. -/
def joinRound {α : Type} (ctx : MultiprocessContext α) (ready : List Nat) :
    JoinOutcome × MultiprocessContext α :=
  if ctx.sentinels.isEmpty then (JoinOutcome.ret true, ctx)
  else
    match (popInspect ctx.procs ctx.sentinels ready).1 with
    | none =>
        (JoinOutcome.ret (popInspect ctx.procs ctx.sentinels ready).2.2.isEmpty,
         { ctx with procs := (popInspect ctx.procs ctx.sentinels ready).2.1,
                    sentinels := (popInspect ctx.procs ctx.sentinels ready).2.2 })
    | some i =>
        (JoinOutcome.raised i (throwException ctx.errorQueues
            ((popInspect ctx.procs ctx.sentinels ready).2.1.map drainProc) i),
         { ctx with procs := (popInspect ctx.procs ctx.sentinels ready).2.1.map drainProc,
                    sentinels := (popInspect ctx.procs ctx.sentinels ready).2.2 })

/-- The supported option keys of `_options_valid_check` (source lines
72-75). -/
def supported_options : List String :=
  ["start_method", "cluster_node_ips", "node_ip", "started_port",
   "selected_gpus", "print_config", "use_paddlecloud"]

/-- Message of the `ValueError` raised for an unknown option key
(source lines 78-80). -/
def unknownKeyMsg (k : String) : String :=
  "The config option (" ++ k ++ ") of paddle.distributed.spawn is not supported."

/-- Model of `_options_valid_check` (source lines 71-80): iterate the
option keys and raise on the first key outside the supported set. -/
def optionsValidCheck : List String → Except PyError Unit
  | [] => Except.ok ()
  | k :: rest =>
      if k ∈ supported_options then optionsValidCheck rest
      else Except.error (PyError.valueError (unknownKeyMsg k))

/-- First key of the list outside the supported set, used to state
which key the check names. -/
def firstUnknownKey (keys : List String) : Option String :=
  keys.find? (fun k => decide (k ∉ supported_options))

/-- Python `options.get(k, None)` on the option dictionary. -/
def getOpt (options : List (String × OptVal)) (k : String) : Option OptVal :=
  (options.find? (fun p => p.1 = k)).map (fun p => p.2)

/-- String content of an option value.  The module only reads string
valued options through this; a non-string value where the source
expects a string would fail later inside Python and is not modelled
further. -/
def asStr : OptVal → String
  | OptVal.str s => s
  | OptVal.int n => toString n
  | OptVal.bool b => toString b

/-- The visible-device list of `_get_subprocess_env_list` (source lines
110-116): `CUDA_VISIBLE_DEVICES` split on commas when set and
non-empty, otherwise one id per physical device. -/
def envDevicesList (inp : PlannerInput) : List String :=
  match inp.cudaVisibleDevices with
  | none => (List.range inp.cudaDeviceCount).map (fun x => toString x)
  | some s =>
      if s = "" then (List.range inp.cudaDeviceCount).map (fun x => toString x)
      else splitComma s

/-- The validation loop at source lines 128-132: the first selected
card id that is not among the visible devices, if any. -/
def checkSelectedGpus : List String → List String → Option String
  | [], _ => none
  | c :: rest, devs =>
      if c ∈ devs then checkSelectedGpus rest devs else some c

/-- Message of the `RuntimeError` raised when fewer devices are visible
than processes requested (source lines 119-124). -/
def notEnoughDevicesMsg (numDevices : Nat) (nprocs : Int) : String :=
  "the number of visible devices(" ++ toString numDevices
    ++ ") is less than the number of spawn processes(" ++ toString nprocs
    ++ "), please ensure that the correct nprocs argument is passed or the "
    ++ "environment variable CUDA_VISIBLE_DEVICES is correctly configured."

/-- Message of the `ValueError` raised for a selected card id outside
the visible devices (source lines 130-132). -/
def cardNotFoundMsg (cardId : String) (devs : List String) : String :=
  "The selected gpu card " ++ cardId ++ " cannot found in CUDA_VISIBLE_DEVICES ("
    ++ joinComma devs ++ ")."

/-- Modelled from the spec: `get_cluster_and_pod`
(python/paddle/distributed/launch.py) and `_prepare_trainer_env`
(python/paddle/distributed/utils.py) are called at source lines 140-144
but are not under src/.  Per the spec (sections 4.1 and 6) the topology
resolver returns exactly one entry per worker carrying its rank, the
world size and its device binding, with entry `i` bound to the `i`-th
selected device; the default single-node topology is used.  The source
hands the resolver the selected devices joined by commas and the
resolver splits them again; the model passes the list directly. -/
def clusterAndPodEnvs (node_ip _cluster_node_ips : String) (selected : List String) :
    List EnvRecord :=
  (List.range selected.length).map (fun i =>
    { rank := i, worldSize := selected.length,
      deviceId := selected.getD i "", currentNodeIp := node_ip })

/-- Model of `_get_subprocess_env_list` (source lines 83-150): validate
the node-ip options, resolve the visible devices, either take the first
`nprocs` visible devices (raising when fewer are visible) or validate
an explicit `selected_gpus` selection, and produce one environment
record per worker via the topology resolver. -/
def getSubprocessEnvList (nprocs : Int) (options : List (String × OptVal))
    (inp : PlannerInput) : Except PyError (List EnvRecord) :=
  let cluster_ips_opt := getOpt options "cluster_node_ips"
  let node_ip_opt := getOpt options "node_ip"
  if cluster_ips_opt.isSome && node_ip_opt.isNone then
    Except.error (PyError.valueError
      "please input current node ip, cannot only give cluster_node_ips.")
  else
    let node_ip := (node_ip_opt.map asStr).getD "127.0.0.1"
    let cluster_node_ips := (cluster_ips_opt.map asStr).getD "127.0.0.1"
    let env_devices_list := envDevicesList inp
    match getOpt options "selected_gpus" with
    | none =>
        if (env_devices_list.length : Int) < nprocs then
          Except.error (PyError.runtimeError
            (notEnoughDevicesMsg env_devices_list.length nprocs))
        else
          let selected := (List.range nprocs.toNat).map
            (fun x => env_devices_list.getD x "")
          Except.ok (clusterAndPodEnvs node_ip cluster_node_ips selected)
    | some v =>
        let selected := splitComma (asStr v)
        match checkSelectedGpus selected env_devices_list with
        | some card_id =>
            Except.error (PyError.valueError (cardNotFoundMsg card_id env_devices_list))
        | none => Except.ok (clusterAndPodEnvs node_ip cluster_node_ips selected)

/-- The environment list of a successful planning run (empty on error),
used to state properties of the `ok` branch without an existential. -/
def okEnvs : Except PyError (List EnvRecord) → List EnvRecord
  | Except.ok envs => envs
  | Except.error _ => []

/-- Default record used with `List.getD` in statements. -/
def defaultEnvRecord : EnvRecord :=
  { rank := 0, worldSize := 0, deviceId := "", currentNodeIp := "" }

/-- The `nprocs` resolution of `spawn` (source lines 376-382): only the
sentinel `-1` is replaced, by the CPU count on a cpu device and by the
visible CUDA device count otherwise; every other value is kept. -/
def resolveNprocs (nprocs : Int) (device : String) (cpuNum : Int)
    (cudaCount : Nat) : Int :=
  if nprocs = -1 then (if device = "cpu" then cpuNum else (cudaCount : Int))
  else nprocs

/-- Model of `spawn` up to process creation (source lines 369-413):
validate the option keys, resolve `nprocs`, plan the environments, and
start `range(nprocs)` worker processes.  The returned pair is the
number of processes started together with the planned records; an
`error` result means the exception was raised before any process was
started. -/
def spawnModel (nprocs : Int) (options : List (String × OptVal)) (inp : PlannerInput)
    (device : String) (cpuNum : Int) : Except PyError (Nat × List EnvRecord) :=
  match optionsValidCheck (options.map Prod.fst) with
  | Except.error e => Except.error e
  | Except.ok _ =>
      let nprocs2 := resolveNprocs nprocs device cpuNum inp.cudaDeviceCount
      match getSubprocessEnvList nprocs2 options inp with
      | Except.error e => Except.error e
      | Except.ok envs => Except.ok (nprocs2.toNat, envs)

/-- The context built at source lines 400-415 right after `spawn`
started `n` processes: all running, queues empty, sentinel map keyed by
every index. -/
def freshContext (α : Type) (n : Nat) : MultiprocessContext α :=
  { procs := List.replicate n ProcStatus.running,
    errorQueues := List.replicate n none,
    returnQueues := List.replicate n none,
    sentinels := List.range n }

/-- Joining a process keeps its exit code. -/
theorem exitcodeOf_joinProc (p : ProcStatus) : exitcodeOf (joinProc p) = exitcodeOf p := by
  cases p <;> rfl

/-- Joining one position keeps every exit code in the list. -/
theorem exitcodeOf_getD_joinAt (procs : List ProcStatus) (i j : Nat) :
    exitcodeOf ((joinAt procs i).getD j ProcStatus.running)
      = exitcodeOf (procs.getD j ProcStatus.running) := by
  induction procs generalizing i j with
  | nil => cases i <;> rfl
  | cons p ps ih =>
      cases i with
      | zero =>
          cases j with
          | zero => simpa [joinAt] using exitcodeOf_joinProc p
          | succ m => rfl
      | succ n =>
          cases j with
          | zero => rfl
          | succ m => simpa [joinAt] using ih n m

/-- The first failing index only depends on the exit codes. -/
theorem firstFailing_congr (procs1 procs2 : List ProcStatus) (ready : List Nat)
    (h : ∀ j, exitcodeOf (procs1.getD j ProcStatus.running)
      = exitcodeOf (procs2.getD j ProcStatus.running)) :
    firstFailing procs1 ready = firstFailing procs2 ready := by
  induction ready with
  | nil => rfl
  | cons i rest ih => simp only [firstFailing, h i, ih]

/-- The error index the inspection loop records is the first reported
worker whose exit code differs from zero. -/
theorem popInspect_fst (procs : List ProcStatus) (sent ready : List Nat) :
    (popInspect procs sent ready).1 = firstFailing procs ready := by
  induction ready generalizing procs sent with
  | nil => rfl
  | cons i rest ih =>
      by_cases hc : exitcodeOf ((joinAt procs i).getD i ProcStatus.running) ≠ some 0
      · have hc2 : exitcodeOf (procs.getD i ProcStatus.running) ≠ some 0 := by
          rw [← exitcodeOf_getD_joinAt procs i i]; exact hc
        simp only [popInspect, firstFailing, if_pos hc, if_pos hc2]
      · have hc2 : ¬ exitcodeOf (procs.getD i ProcStatus.running) ≠ some 0 := by
          rw [← exitcodeOf_getD_joinAt procs i i]; exact hc
        simp only [popInspect, firstFailing, if_neg hc, if_neg hc2]
        rw [ih]
        exact firstFailing_congr _ _ rest (fun j => exitcodeOf_getD_joinAt procs i j)

/-- A recorded failing index has a non-zero exit code. -/
theorem firstFailing_ne_zero (procs : List ProcStatus) (ready : List Nat) (j : Nat)
    (h : firstFailing procs ready = some j) :
    exitcodeOf (procs.getD j ProcStatus.running) ≠ some 0 := by
  induction ready with
  | nil => cases h
  | cons i rest ih =>
      by_cases hc : exitcodeOf (procs.getD i ProcStatus.running) ≠ some 0
      · simp only [firstFailing, if_pos hc] at h
        injection h with h2
        subst h2
        exact hc
      · simp only [firstFailing, if_neg hc] at h
        exact ih h

/-- No failing index is recorded when every reported worker exited
with code zero. -/
theorem firstFailing_of_all_zero (procs : List ProcStatus) (ready : List Nat)
    (h : ∀ j ∈ ready, exitcodeOf (procs.getD j ProcStatus.running) = some 0) :
    firstFailing procs ready = none := by
  induction ready with
  | nil => rfl
  | cons i rest ih =>
      have hi := h i (by simp)
      simp only [firstFailing, hi, ne_eq, not_true_eq_false, if_false]
      exact ih (fun j hj => h j (by simp [hj]))

/-- The teardown loop leaves every process reaped. -/
theorem isReaped_drainProc (p : ProcStatus) : isReaped (drainProc p) = true := by
  cases p <;> rfl

/-- Inversion of a raising round of `join`: what must have happened
when `joinRound` ends in a raised exception. -/
theorem joinRound_raised_inv {α : Type} (ctx : MultiprocessContext α) (ready : List Nat)
    (i : Nat) (r : PyError) (ctx2 : MultiprocessContext α)
    (h : joinRound ctx ready = (JoinOutcome.raised i r, ctx2)) :
    (popInspect ctx.procs ctx.sentinels ready).1 = some i
    ∧ ctx2.procs = ((popInspect ctx.procs ctx.sentinels ready).2.1).map drainProc
    ∧ ctx2.sentinels = (popInspect ctx.procs ctx.sentinels ready).2.2
    ∧ r = throwException ctx.errorQueues ctx2.procs i := by
  unfold joinRound at h
  split at h
  · exact absurd (congrArg Prod.fst h) (by simp)
  · split at h
    · exact absurd (congrArg Prod.fst h) (by simp)
    · rename_i j hp
      injection h with h1 h2
      injection h1 with hj hr
      subst hj
      subst h2
      exact ⟨hp, rfl, rfl, hr.symm⟩

/-- A round of `join` that returns `true` leaves the live map empty. -/
theorem joinRound_true_empty {α : Type} (ctx : MultiprocessContext α) (ready : List Nat)
    (ctx2 : MultiprocessContext α)
    (h : joinRound ctx ready = (JoinOutcome.ret true, ctx2)) :
    ctx2.sentinels.isEmpty = true := by
  unfold joinRound at h
  split at h
  · rename_i hs
    injection h with h1 h2
    subst h2
    exact hs
  · split at h
    · injection h with h1 h2
      injection h1 with hb
      subst h2
      exact hb
    · injection h with h1 h2
      exact absurd h1 (by simp)

/-- A round of `join` on an empty live map returns `true` at once
without touching the pool. -/
theorem joinRound_empty {α : Type} (c : MultiprocessContext α)
    (h : c.sentinels.isEmpty = true) (ready : List Nat) :
    joinRound c ready = (JoinOutcome.ret true, c) := by
  unfold joinRound
  rw [if_pos h]

/-- C1: whenever a round of `join` ends by raising the composed
failure, every process of the pool has been terminated (when still
alive) and joined beforehand: in the post-raise context every process
is reaped, so the caller never observes the failure while a sibling is
alive or un-reaped. -/
theorem spec_C1_drain_before_raise {α : Type} (ctx : MultiprocessContext α)
    (ready : List Nat) (i : Nat) (r : PyError) (ctx2 : MultiprocessContext α)
    (h : joinRound ctx ready = (JoinOutcome.raised i r, ctx2)) :
    ∀ p ∈ ctx2.procs, isReaped p = true := by
  obtain ⟨-, hprocs, -, -⟩ := joinRound_raised_inv ctx ready i r ctx2 h
  intro p hp
  rw [hprocs] at hp
  obtain ⟨q, hq, rfl⟩ := List.mem_map.mp hp
  exact isReaped_drainProc q

/-- Witness for C1 at a concrete pool: one worker exited with code 1,
the raising round reaps it. -/
theorem spec_C1_witness : isReaped (ProcStatus.reaped 1) = true :=
  spec_C1_drain_before_raise
    (⟨[ProcStatus.exited 1], [some "boom"], ([none] : List (Option Nat)), [0]⟩ :
      MultiprocessContext Nat)
    [0] 0 _ _ rfl (ProcStatus.reaped 1) (by decide)

/-- C2: when a round of `join` raises, the reported worker is exactly
the first worker in the order the wait reported them whose exit code
differs from zero; the other workers of the batch (and the whole pool)
are nevertheless reaped, and theirs is never the reported failure. -/
theorem spec_C2_first_failure_wins {α : Type} (ctx : MultiprocessContext α)
    (ready : List Nat) (i : Nat) (r : PyError) (ctx2 : MultiprocessContext α)
    (h : joinRound ctx ready = (JoinOutcome.raised i r, ctx2)) :
    firstFailing ctx.procs ready = some i
    ∧ ∀ p ∈ ctx2.procs, isReaped p = true := by
  obtain ⟨hfst, hprocs, -, -⟩ := joinRound_raised_inv ctx ready i r ctx2 h
  constructor
  · rw [← popInspect_fst ctx.procs ctx.sentinels ready]
    exact hfst
  · intro p hp
    rw [hprocs] at hp
    obtain ⟨q, hq, rfl⟩ := List.mem_map.mp hp
    exact isReaped_drainProc q

/-- Witness for C2 at a concrete pool with one exited worker. -/
theorem spec_C2_witness : firstFailing [ProcStatus.exited 1] [0] = some 0 :=
  (spec_C2_first_failure_wins
    (⟨[ProcStatus.exited 1], [some "boom"], ([none] : List (Option Nat)), [0]⟩ :
      MultiprocessContext Nat)
    [0] 0 _ _ rfl).1

/-- C3: the claim says an empty error channel with a positive exit
code yields a failure message naming the index and the raw exit code.
The source instead evaluates `"..." & (error_index, exitcode)` at line
232, a bitwise-AND of a `str` and a `tuple`, which raises a `TypeError`
in Python, so no such message is ever produced; the negative-exit-code
branch does produce the signal-naming message.  The theorem evaluates
the model at both inputs. -/
theorem spec_C3_fallback_message_bug :
    throwException [none] [ProcStatus.reaped 1] 0 = PyError.typeError
    ∧ throwException [none] [ProcStatus.reaped (-9)] 0
        = PyError.exception "Process 0 terminated with signal SIGKILL." :=
  ⟨rfl, rfl⟩

/-- C4: the wrapper writes the return value to the result channel and
nothing to the error channel on normal return; writes to neither
channel on `KeyboardInterrupt`; and on any other unhandled exception
writes the formatted traceback to the error channel, nothing to the
result channel, and exits with a non-zero status.  The match on
`FuncOutcome` is total, so diagnostic capture covers the entire call. -/
theorem spec_C4_wrapper_routing (env envDict : List (String × String)) :
    (∀ v : Nat, (funcWrapper env envDict (FuncOutcome.ret v)).returnQueue = some v
       ∧ (funcWrapper env envDict (FuncOutcome.ret v)).errorQueue = none)
    ∧ ((funcWrapper env envDict (FuncOutcome.keyboardInterrupt : FuncOutcome Nat)).returnQueue
         = none
       ∧ (funcWrapper env envDict
           (FuncOutcome.keyboardInterrupt : FuncOutcome Nat)).errorQueue = none)
    ∧ (∀ t : String,
        (funcWrapper env envDict (FuncOutcome.exc t : FuncOutcome Nat)).errorQueue = some t
        ∧ (funcWrapper env envDict (FuncOutcome.exc t : FuncOutcome Nat)).returnQueue = none
        ∧ (funcWrapper env envDict (FuncOutcome.exc t : FuncOutcome Nat)).exitcode ≠ 0) :=
  ⟨fun _ => ⟨rfl, rfl⟩, ⟨rfl, rfl⟩, fun _ => ⟨rfl, rfl, one_ne_zero⟩⟩

/-- C8: once the live map is empty a call to `join` returns `true`
immediately; in particular after any round that returned `true`, every
later round returns `true` again, unchanged state, no exception. -/
theorem spec_C8_join_idempotent {α : Type} (ctx : MultiprocessContext α)
    (ready : List Nat) (h : (joinRound ctx ready).1 = JoinOutcome.ret true) :
    ∀ ready2 : List Nat,
      joinRound (joinRound ctx ready).2 ready2
        = (JoinOutcome.ret true, (joinRound ctx ready).2) := by
  intro ready2
  have hpair : joinRound ctx ready = (JoinOutcome.ret true, (joinRound ctx ready).2) := by
    rw [← h]
  have hemp := joinRound_true_empty ctx ready (joinRound ctx ready).2 hpair
  exact joinRound_empty _ hemp ready2

/-- Witness for C8: a pool whose single worker exits cleanly; re-join
after the `true` round returns `true` again. -/
theorem spec_C8_witness :
    joinRound (joinRound (⟨[ProcStatus.exited 0], [none], ([none] : List (Option Nat)),
        [0]⟩ : MultiprocessContext Nat) [0]).2 []
      = (JoinOutcome.ret true,
         (joinRound (⟨[ProcStatus.exited 0], [none], ([none] : List (Option Nat)),
            [0]⟩ : MultiprocessContext Nat) [0]).2) :=
  spec_C8_join_idempotent
    (⟨[ProcStatus.exited 0], [none], ([none] : List (Option Nat)), [0]⟩ :
      MultiprocessContext Nat)
    [0] rfl []

/-- C9: a worker whose user function is stopped by `KeyboardInterrupt`
exits with status 0 and writes to neither channel, so the supervisor
treats it as successful: such a worker is never recorded as the
failing index, and a round whose reported workers all exited with code
0 never raises. -/
theorem spec_C9_interrupt_counts_success (env envDict : List (String × String)) :
    (funcWrapper env envDict (FuncOutcome.keyboardInterrupt : FuncOutcome Nat)).exitcode = 0
    ∧ (funcWrapper env envDict
        (FuncOutcome.keyboardInterrupt : FuncOutcome Nat)).errorQueue = none
    ∧ (funcWrapper env envDict
        (FuncOutcome.keyboardInterrupt : FuncOutcome Nat)).returnQueue = none
    ∧ (∀ (procs : List ProcStatus) (sent ready : List Nat) (i : Nat),
        exitcodeOf (procs.getD i ProcStatus.running) = some 0 →
        (popInspect procs sent ready).1 ≠ some i)
    ∧ (∀ (ctx : MultiprocessContext Nat) (ready : List Nat),
        (∀ j ∈ ready, exitcodeOf (ctx.procs.getD j ProcStatus.running) = some 0) →
        ∀ (i : Nat) (r : PyError), (joinRound ctx ready).1 ≠ JoinOutcome.raised i r) := by
  refine ⟨rfl, rfl, rfl, ?_, ?_⟩
  · intro procs sent ready i h0 heq
    rw [popInspect_fst] at heq
    exact (firstFailing_ne_zero procs ready i heq) h0
  · intro ctx ready hall i r heq
    have hpair : joinRound ctx ready = (JoinOutcome.raised i r, (joinRound ctx ready).2) := by
      rw [← heq]
    obtain ⟨hfst, -, -, -⟩ := joinRound_raised_inv ctx ready i r _ hpair
    rw [popInspect_fst, firstFailing_of_all_zero ctx.procs ready hall] at hfst
    cases hfst

/-- Witness for C9: a worker with exit code 0 is not flagged. -/
theorem spec_C9_witness : (popInspect [ProcStatus.exited 0] [0] [0]).1 ≠ some 0 :=
  (spec_C9_interrupt_counts_success [] []).2.2.2.1 [ProcStatus.exited 0] [0] [0] 0 rfl

/-- Reading a mapped range at an index below the bound. -/
theorem getD_map_range {β : Type} (f : Nat → β) (n j : Nat) (h : j < n) (d : β) :
    ((List.range n).map f).getD j d = f j := by
  rw [List.getD_eq_getElem?_getD, List.getElem?_map, List.getElem?_range h]
  rfl

/-- Entry `j` of the records the modelled resolver produces. -/
theorem clusterAndPodEnvs_getD (node_ip cips : String) (selected : List String)
    (j : Nat) (h : j < selected.length) :
    (clusterAndPodEnvs node_ip cips selected).getD j defaultEnvRecord
      = { rank := j, worldSize := selected.length,
          deviceId := selected.getD j "", currentNodeIp := node_ip } :=
  getD_map_range _ _ _ h _

/-- The record list the resolver produces has one entry per selected
device. -/
theorem clusterAndPodEnvs_length (node_ip cips : String) (selected : List String) :
    (clusterAndPodEnvs node_ip cips selected).length = selected.length := by
  simp [clusterAndPodEnvs]

/-- The selected-gpus validation loop reports some card when a
selected card is absent from the visible devices. -/
theorem checkSelectedGpus_isSome (l devs : List String) (c : String) :
    c ∈ l → c ∉ devs → ∃ d, checkSelectedGpus l devs = some d := by
  induction l with
  | nil => intro hc _; cases hc
  | cons a rest ih =>
      intro hc hnc
      by_cases ha : a ∈ devs
      · rcases List.mem_cons.mp hc with h | h
        · subst h; exact absurd ha hnc
        · obtain ⟨d, hd⟩ := ih h hnc
          exact ⟨d, by simp [checkSelectedGpus, ha, hd]⟩
      · exact ⟨a, by simp [checkSelectedGpus, ha]⟩

/-- The card the validation loop reports is indeed absent from the
visible devices. -/
theorem checkSelectedGpus_not_mem (l devs : List String) (d : String) :
    checkSelectedGpus l devs = some d → d ∉ devs := by
  induction l with
  | nil => intro h; cases h
  | cons a rest ih =>
      intro h
      by_cases ha : a ∈ devs
      · simp only [checkSelectedGpus, if_pos ha] at h
        exact ih h
      · simp only [checkSelectedGpus, if_neg ha] at h
        injection h with h2
        subst h2
        exact ha

/-- The option-key check finds some key when an unsupported key is
present. -/
theorem firstUnknownKey_isSome (keys : List String) (k : String) :
    k ∈ keys → k ∉ supported_options → ∃ d, firstUnknownKey keys = some d := by
  induction keys with
  | nil => intro hc _; cases hc
  | cons a rest ih =>
      intro hk hno
      by_cases ha : a ∈ supported_options
      · have hfa : (decide (a ∉ supported_options)) = false := by simp [ha]
        rcases List.mem_cons.mp hk with h | h
        · subst h; exact absurd ha hno
        · obtain ⟨d, hd⟩ := ih h hno
          refine ⟨d, ?_⟩
          simp only [firstUnknownKey] at hd ⊢
          rw [List.find?_cons_of_neg _ (by simp [hfa]), hd]
      · refine ⟨a, ?_⟩
        simp only [firstUnknownKey]
        rw [List.find?_cons_of_pos _ (by simp [ha])]

/-- When the key check finds a key, the check raises the `ValueError`
naming that key, and the key is unsupported. -/
theorem optionsValidCheck_firstUnknown (keys : List String) (d : String) :
    firstUnknownKey keys = some d →
      optionsValidCheck keys = Except.error (PyError.valueError (unknownKeyMsg d))
      ∧ d ∉ supported_options := by
  induction keys with
  | nil => intro h; cases h
  | cons a rest ih =>
      intro h
      by_cases ha : a ∈ supported_options
      · simp only [firstUnknownKey] at h
        rw [List.find?_cons_of_neg _ (by simp [ha])] at h
        obtain ⟨h1, h2⟩ := ih h
        exact ⟨by simp [optionsValidCheck, ha, h1], h2⟩
      · simp only [firstUnknownKey] at h
        rw [List.find?_cons_of_pos _ (by simp [ha])] at h
        injection h with h2
        subst h2
        exact ⟨by simp [optionsValidCheck, ha], ha⟩

/-- The default branch of the planner (no explicit selection, enough
visible devices): the first `nprocs` visible devices are selected. -/
theorem getSubprocessEnvList_default (nprocs : Int) (options : List (String × OptVal))
    (inp : PlannerInput)
    (hsel : getOpt options "selected_gpus" = none)
    (hcl : ((getOpt options "cluster_node_ips").isSome
        && (getOpt options "node_ip").isNone) = false)
    (hnlt : ¬ ((envDevicesList inp).length : Int) < nprocs) :
    getSubprocessEnvList nprocs options inp
      = Except.ok (clusterAndPodEnvs
          (((getOpt options "node_ip").map asStr).getD "127.0.0.1")
          (((getOpt options "cluster_node_ips").map asStr).getD "127.0.0.1")
          ((List.range nprocs.toNat).map (fun x => (envDevicesList inp).getD x ""))) := by
  simp [getSubprocessEnvList, hsel, hcl, hnlt]

/-- C5: with no explicit device selection the planner requires at
least `nprocs` visible devices and raises the device-count error
otherwise; on success it deterministically binds the first `nprocs`
visible devices, in visibility order, to workers `0..nprocs-1`.  Under
`spawn` the failure propagates before any process is started: the
spawn model returns the error instead of a started-process count. -/
theorem spec_C5_default_device_binding (nprocs : Int) (options : List (String × OptVal))
    (inp : PlannerInput)
    (hsel : getOpt options "selected_gpus" = none)
    (hcl : ((getOpt options "cluster_node_ips").isSome
        && (getOpt options "node_ip").isNone) = false) :
    (((envDevicesList inp).length : Int) < nprocs →
       getSubprocessEnvList nprocs options inp
         = Except.error (PyError.runtimeError
             (notEnoughDevicesMsg (envDevicesList inp).length nprocs)))
    ∧ (nprocs ≤ ((envDevicesList inp).length : Int) →
       getSubprocessEnvList nprocs options inp
           = Except.ok (okEnvs (getSubprocessEnvList nprocs options inp))
         ∧ (okEnvs (getSubprocessEnvList nprocs options inp)).length = nprocs.toNat
         ∧ ∀ j, j < nprocs.toNat →
             ((okEnvs (getSubprocessEnvList nprocs options inp)).getD j
                 defaultEnvRecord).rank = j
             ∧ ((okEnvs (getSubprocessEnvList nprocs options inp)).getD j
                 defaultEnvRecord).deviceId = (envDevicesList inp).getD j "")
    ∧ (optionsValidCheck (options.map Prod.fst) = Except.ok () → nprocs ≠ -1 →
       ((envDevicesList inp).length : Int) < nprocs →
       ∀ (device : String) (cpuNum : Int),
         spawnModel nprocs options inp device cpuNum
           = Except.error (PyError.runtimeError
               (notEnoughDevicesMsg (envDevicesList inp).length nprocs))) := by
  have hA : ∀ m : Int, ((envDevicesList inp).length : Int) < m →
      getSubprocessEnvList m options inp
        = Except.error (PyError.runtimeError
            (notEnoughDevicesMsg (envDevicesList inp).length m)) := by
    intro m hlt
    simp [getSubprocessEnvList, hsel, hcl, hlt]
  refine ⟨hA nprocs, ?_, ?_⟩
  · intro hle
    have hnlt : ¬ ((envDevicesList inp).length : Int) < nprocs := not_lt.mpr hle
    have hok := getSubprocessEnvList_default nprocs options inp hsel hcl hnlt
    refine ⟨?_, ?_, ?_⟩
    · rw [hok]; rfl
    · rw [hok]
      simp [okEnvs, clusterAndPodEnvs]
    · intro j hj
      rw [hok]
      dsimp only [okEnvs]
      have hjlt : j < ((List.range nprocs.toNat).map
          (fun x => (envDevicesList inp).getD x "")).length := by
        simpa using hj
      rw [clusterAndPodEnvs_getD _ _ _ j hjlt]
      exact ⟨rfl, getD_map_range _ _ _ hj _⟩
  · intro hkeys hne hlt device cpuNum
    have hres : resolveNprocs nprocs device cpuNum inp.cudaDeviceCount = nprocs := by
      simp [resolveNprocs, hne]
    simp [spawnModel, hkeys, hres, hA nprocs hlt]

/-- Witness for C5 with two workers over visible devices "0,1". -/
theorem spec_C5_witness :
    (okEnvs (getSubprocessEnvList 2 [] (⟨some "0,1", 3⟩ : PlannerInput))).length = 2 :=
  ((spec_C5_default_device_binding 2 [] (⟨some "0,1", 3⟩ : PlannerInput) rfl rfl).2.1
    (by decide)).2.1

/-- C6: an explicit `selected_gpus` selection containing an id outside
the visible-device set makes planning fail with the `ValueError` whose
message names the (first such) offending id, and under `spawn` the
failure happens before any worker process is spawned: the spawn model
returns the error instead of a started-process count. -/
theorem spec_C6_bad_selected_gpu (nprocs : Int) (options : List (String × OptVal))
    (inp : PlannerInput) (sel c : String)
    (hsel : getOpt options "selected_gpus" = some (OptVal.str sel))
    (hcl : ((getOpt options "cluster_node_ips").isSome
        && (getOpt options "node_ip").isNone) = false)
    (hc : c ∈ splitComma sel)
    (hnc : c ∉ envDevicesList inp) :
    ((checkSelectedGpus (splitComma sel) (envDevicesList inp)).getD "") ∉ envDevicesList inp
    ∧ getSubprocessEnvList nprocs options inp
        = Except.error (PyError.valueError
            (cardNotFoundMsg
              ((checkSelectedGpus (splitComma sel) (envDevicesList inp)).getD "")
              (envDevicesList inp)))
    ∧ (optionsValidCheck (options.map Prod.fst) = Except.ok () →
       ∀ (device : String) (cpuNum : Int),
         spawnModel nprocs options inp device cpuNum
           = Except.error (PyError.valueError
               (cardNotFoundMsg
                 ((checkSelectedGpus (splitComma sel) (envDevicesList inp)).getD "")
                 (envDevicesList inp)))) := by
  obtain ⟨d, hd⟩ := checkSelectedGpus_isSome (splitComma sel) (envDevicesList inp) c hc hnc
  have hplan : ∀ m : Int, getSubprocessEnvList m options inp
      = Except.error (PyError.valueError
          (cardNotFoundMsg
            ((checkSelectedGpus (splitComma sel) (envDevicesList inp)).getD "")
            (envDevicesList inp))) := by
    intro m
    simp [getSubprocessEnvList, hsel, hcl, asStr, hd]
  refine ⟨?_, hplan nprocs, ?_⟩
  · rw [hd]
    simpa using checkSelectedGpus_not_mem _ _ d hd
  · intro hkeys device cpuNum
    simp [spawnModel, hkeys, hplan]

/-- Witness for C6: selecting card "5" with visible devices "0,1". -/
theorem spec_C6_witness :
    getSubprocessEnvList 2 [("selected_gpus", OptVal.str "5")]
        (⟨some "0,1", 2⟩ : PlannerInput)
      = Except.error (PyError.valueError
          "The selected gpu card 5 cannot found in CUDA_VISIBLE_DEVICES (0,1).") :=
  (spec_C6_bad_selected_gpu 2 [("selected_gpus", OptVal.str "5")]
    (⟨some "0,1", 2⟩ : PlannerInput) "5" "5" rfl rfl (by decide) (by decide)).2.1

/-- C7: an options dictionary with a key outside the supported set
makes `spawn` raise the `ValueError` naming the (first such) unknown
key; the spawn model returns that error whatever the planner inputs
are, so the failure precedes environment planning and process
creation. -/
theorem spec_C7_unknown_option_key (options : List (String × OptVal)) (k : String)
    (hk : k ∈ options.map Prod.fst) (hu : k ∉ supported_options) :
    ((firstUnknownKey (options.map Prod.fst)).getD "") ∉ supported_options
    ∧ optionsValidCheck (options.map Prod.fst)
        = Except.error (PyError.valueError
            (unknownKeyMsg ((firstUnknownKey (options.map Prod.fst)).getD "")))
    ∧ ∀ (nprocs : Int) (inp : PlannerInput) (device : String) (cpuNum : Int),
        spawnModel nprocs options inp device cpuNum
          = Except.error (PyError.valueError
              (unknownKeyMsg ((firstUnknownKey (options.map Prod.fst)).getD ""))) := by
  obtain ⟨d, hd⟩ := firstUnknownKey_isSome (options.map Prod.fst) k hk hu
  obtain ⟨h1, h2⟩ := optionsValidCheck_firstUnknown (options.map Prod.fst) d hd
  rw [hd]
  refine ⟨by simpa using h2, by simpa using h1, ?_⟩
  intro nprocs inp device cpuNum
  simp [spawnModel, h1]

/-- Witness for C7 with the unknown key "bad_key". -/
theorem spec_C7_witness :
    spawnModel 1 [("bad_key", OptVal.bool true)] (⟨none, 1⟩ : PlannerInput) "cpu" 1
      = Except.error (PyError.valueError (unknownKeyMsg "bad_key")) :=
  (spec_C7_unknown_option_key [("bad_key", OptVal.bool true)] "bad_key"
    (by decide) (by decide)).2.2 1 (⟨none, 1⟩ : PlannerInput) "cpu" 1

/-- C10: only the sentinel `-1` triggers auto-resolution of `nprocs`;
any other value, `0` included, is used verbatim.  With `nprocs = 0`
and valid options the spawn model starts zero processes, and a round
of `join` on the resulting empty pool returns `true` immediately. -/
theorem spec_C10_nprocs_verbatim :
    (∀ (n : Int) (device : String) (cpuNum : Int) (cnt : Nat),
        n ≠ -1 → resolveNprocs n device cpuNum cnt = n)
    ∧ (∀ (inp : PlannerInput) (device : String) (cpuNum : Int),
        spawnModel 0 [] inp device cpuNum = Except.ok (0, []))
    ∧ ∀ ready : List Nat,
        joinRound (freshContext Nat 0) ready = (JoinOutcome.ret true, freshContext Nat 0) := by
  refine ⟨?_, ?_, ?_⟩
  · intro n device cpuNum cnt hne
    simp [resolveNprocs, hne]
  · intro inp device cpuNum
    have h0 : ¬ ((envDevicesList inp).length : Int) < (0 : Int) :=
      not_lt.mpr (Int.ofNat_nonneg _)
    simp [spawnModel, optionsValidCheck, resolveNprocs, getSubprocessEnvList, getOpt,
      h0, clusterAndPodEnvs]
  · intro ready
    exact joinRound_empty (freshContext Nat 0) rfl ready

/-- Witness for C10: `nprocs = 0` is kept verbatim. -/
theorem spec_C10_witness : resolveNprocs 0 "gpu:0" 4 8 = 0 :=
  spec_C10_nprocs_verbatim.1 0 "gpu:0" 4 8 (by decide)

end PaddleSpawn
